import Mathlib

/-!
Shallow embedding of `src/environ.py` (class `EnvironmentalMonitor`).

Python floats are modelled as exact rationals (`ℚ`); `None` for the
optional numeric fields is `Option.none`.  The `datetime` timestamp is an
abstract type parameter `DT`, and `datetime.isoformat` is an abstract
renderer `iso : DT → String` supplied by the caller.  The geodesic
computation is delegated by the source to the external `geopy` library
(`geodesic(a, b).feet`), so it is modelled as an abstract collaborator
`geodesicMeters : ℚ × ℚ → ℚ × ℚ → ℚ` composed with an exact
metres-to-feet conversion.  Methods become explicit state-passing
functions `EnvironmentalMonitor DT → result × EnvironmentalMonitor DT`;
the file write and the AWS IoT publish become returned effect values.
-/

/-- State of the Python class `EnvironmentalMonitor`: the five fields set
up by `__init__` (lines 9-15 of `src/environ.py`). -/
structure EnvironmentalMonitor (DT : Type) where
  last_update_time : DT
  last_longitude : Option ℚ
  last_latitude : Option ℚ
  send_remote : Bool
  last_particulate_reading : Option ℚ
deriving Repr

/-- `__init__`: `last_update_time` is set to the current time (supplied
here by the caller as `now`), both coordinates and the particulate
reading to `None`, and `send_remote` to `False`. -/
def initMonitor {DT : Type} (now : DT) : EnvironmentalMonitor DT :=
  { last_update_time := now
    last_longitude := none
    last_latitude := none
    send_remote := false
    last_particulate_reading := none }

/-- Property setter for `last_update_time`. -/
def set_last_update_time {DT : Type} (self : EnvironmentalMonitor DT) (value : DT) :
    EnvironmentalMonitor DT :=
  { self with last_update_time := value }

/-- Property setter for `last_longitude`. -/
def set_last_longitude {DT : Type} (self : EnvironmentalMonitor DT) (value : Option ℚ) :
    EnvironmentalMonitor DT :=
  { self with last_longitude := value }

/-- Property setter for `last_latitude`. -/
def set_last_latitude {DT : Type} (self : EnvironmentalMonitor DT) (value : Option ℚ) :
    EnvironmentalMonitor DT :=
  { self with last_latitude := value }

/-- Property setter for `send_remote`. -/
def set_send_remote {DT : Type} (self : EnvironmentalMonitor DT) (value : Bool) :
    EnvironmentalMonitor DT :=
  { self with send_remote := value }

/-- Property setter for `last_particulate_reading`. -/
def set_last_particulate_reading {DT : Type} (self : EnvironmentalMonitor DT)
    (value : Option ℚ) : EnvironmentalMonitor DT :=
  { self with last_particulate_reading := value }

/-- Exact metres-to-feet factor: one foot is 0.3048 m, so one metre is
1250/381 feet.  This models the `.feet` unit conversion performed by the
`geopy` distance object. -/
def metersToFeet (meters : ℚ) : ℚ :=
  meters * (1250 / 381)

/-- `calculate_distance_moved` (lines 67-82): returns `0.0` when either
stored coordinate is `None`, otherwise the geodesic distance between the
stored pair and the supplied pair converted to feet.  The ellipsoidal
geodesic itself lives in the external `geopy` collaborator, abstracted as
`geodesicMeters`.  The method assigns no field, so the state is passed
through unchanged. -/
def calculate_distance_moved {DT : Type} (geodesicMeters : ℚ × ℚ → ℚ × ℚ → ℚ)
    (self : EnvironmentalMonitor DT) (current_latitude current_longitude : ℚ) :
    ℚ × EnvironmentalMonitor DT :=
  match self.last_latitude, self.last_longitude with
  | none, _ => (0, self)
  | _, none => (0, self)
  | some la, some lo =>
      (metersToFeet (geodesicMeters (la, lo) (current_latitude, current_longitude)), self)

/-- `read_gps_coordinates` (lines 84-95): the shipped stub source yields
the fixed pair `(34.0522, -118.2437)`, stores both components into
`last_latitude` / `last_longitude`, and returns the pair. -/
def read_gps_coordinates {DT : Type} (self : EnvironmentalMonitor DT) :
    (ℚ × ℚ) × EnvironmentalMonitor DT :=
  let current_latitude : ℚ := 34.0522
  let current_longitude : ℚ := -118.2437
  ((current_latitude, current_longitude),
    { self with
        last_latitude := some current_latitude
        last_longitude := some current_longitude })

/-- `read_environmental_data` (lines 97-107): the shipped stub sensor
yields the fixed reading `15.5`, stores it into
`last_particulate_reading`, and returns it. -/
def read_environmental_data {DT : Type} (self : EnvironmentalMonitor DT) :
    ℚ × EnvironmentalMonitor DT :=
  let particulate_reading : ℚ := 15.5
  (particulate_reading, { self with last_particulate_reading := some particulate_reading })

/-- JSON documents as produced by the serialization methods: null, a
number, a string, or an object given as an ordered field list. -/
inductive JsonValue where
  | null : JsonValue
  | num : ℚ → JsonValue
  | str : String → JsonValue
  | obj : List (String × JsonValue) → JsonValue

/-- How Python's `json.dump` renders an optional float field: `None`
becomes JSON `null`, a stored number stays a number. -/
def optNumToJson : Option ℚ → JsonValue
  | none => JsonValue.null
  | some q => JsonValue.num q

/-- The key list of a JSON object (empty for non-objects). -/
def JsonValue.keyList : JsonValue → List String
  | JsonValue.obj fields => fields.map Prod.fst
  | _ => []

/-- Field access in a JSON object by key (first match). -/
def JsonValue.getField : JsonValue → String → Option JsonValue
  | JsonValue.obj fields, k => List.lookup k fields
  | _, _ => none

/-- A file-write effect: the destination path and the document written,
replacing any prior content at that path. -/
structure FileWrite where
  path : String
  content : JsonValue

/-- `save_data_to_json` (lines 109-123): builds the four-field object in
source order and writes it to `file_path` with `open(file_path, 'w')`
(full overwrite).  The method assigns no field, so the state is passed
through unchanged. -/
def save_data_to_json {DT : Type} (iso : DT → String) (self : EnvironmentalMonitor DT)
    (file_path : String) : FileWrite × EnvironmentalMonitor DT :=
  ({ path := file_path
     content := JsonValue.obj
       [("last_update_time", JsonValue.str (iso self.last_update_time)),
        ("last_longitude", optNumToJson self.last_longitude),
        ("last_latitude", optNumToJson self.last_latitude),
        ("last_particulate_reading", optNumToJson self.last_particulate_reading)] },
   self)

/-- A publish effect issued to the AWS IoT collaborator: topic, MQTT
quality-of-service level (`qos = 1` is at-least-once delivery), and the
document published. -/
structure PublishCall where
  topic : String
  qos : Nat
  payload : JsonValue

/-- `send_data_to_aws_iot` (lines 125-149): returns immediately with no
publish when `send_remote` is false; otherwise issues exactly one
`client.publish` with `qos=1` whose payload nests the four fields under
`state.reported`.  The method assigns no field, so the state is passed
through unchanged. -/
def send_data_to_aws_iot {DT : Type} (iso : DT → String) (self : EnvironmentalMonitor DT)
    (aws_iot_topic : String) : List PublishCall × EnvironmentalMonitor DT :=
  if !self.send_remote then ([], self)
  else
    ([{ topic := aws_iot_topic
        qos := 1
        payload := JsonValue.obj
          [("state", JsonValue.obj
            [("reported", JsonValue.obj
              [("last_update_time", JsonValue.str (iso self.last_update_time)),
               ("last_longitude", optNumToJson self.last_longitude),
               ("last_latitude", optNumToJson self.last_latitude),
               ("last_particulate_reading", optNumToJson self.last_particulate_reading)])])] }],
     self)

/-- Storing a coordinate pair as the last position through the property
setters, as a caller would before querying a distance. -/
def store_position {DT : Type} (self : EnvironmentalMonitor DT) (lat lon : ℚ) :
    EnvironmentalMonitor DT :=
  set_last_longitude (set_last_latitude self (some lat)) (some lon)

/-- A concrete symmetric geodesic collaborator used to instantiate the
abstract `geodesicMeters` parameter in closed-form checks. -/
def toyGeod (p q : ℚ × ℚ) : ℚ :=
  (p.1 - q.1) * (p.1 - q.1) + (p.2 - q.2) * (p.2 - q.2)

/-- Claim C1: when either stored coordinate is absent,
`calculate_distance_moved` returns exactly 0.0 for every input pair, for
every state. -/
theorem calculate_distance_moved_no_prior {DT : Type}
    (geodesicMeters : ℚ × ℚ → ℚ × ℚ → ℚ) (self : EnvironmentalMonitor DT)
    (h : self.last_latitude = none ∨ self.last_longitude = none)
    (current_latitude current_longitude : ℚ) :
    (calculate_distance_moved geodesicMeters self current_latitude current_longitude).1 = 0 := by
  rcases h with h | h
  · simp [calculate_distance_moved, h]
  · cases h1 : self.last_latitude <;> simp [calculate_distance_moved, h1, h]

/-- Witness for C1 at the fresh monitor (both coordinates `None`). -/
theorem calculate_distance_moved_no_prior_witness :
    (calculate_distance_moved toyGeod (initMonitor (0 : ℕ)) 5 6).1 = 0 :=
  calculate_distance_moved_no_prior toyGeod (initMonitor 0) (Or.inl rfl) 5 6

/-- Claim C2: when both stored coordinates are present,
`calculate_distance_moved` returns the geodesic-collaborator distance
between the stored pair and the supplied pair, converted to feet. -/
theorem calculate_distance_moved_geodesic {DT : Type}
    (geodesicMeters : ℚ × ℚ → ℚ × ℚ → ℚ) (self : EnvironmentalMonitor DT)
    (la lo : ℚ) (h1 : self.last_latitude = some la) (h2 : self.last_longitude = some lo)
    (current_latitude current_longitude : ℚ) :
    (calculate_distance_moved geodesicMeters self current_latitude current_longitude).1 =
      metersToFeet (geodesicMeters (la, lo) (current_latitude, current_longitude)) := by
  simp [calculate_distance_moved, h1, h2]

/-- Witness for C2 at a state holding position (1, 2). -/
theorem calculate_distance_moved_geodesic_witness :
    (calculate_distance_moved toyGeod (store_position (initMonitor (0 : ℕ)) 1 2) 3 4).1 =
      metersToFeet (toyGeod (1, 2) (3, 4)) :=
  calculate_distance_moved_geodesic toyGeod (store_position (initMonitor 0) 1 2) 1 2 rfl rfl 3 4

/-- Claim C3: with a symmetric geodesic collaborator, storing A then
querying B yields the same distance as storing B then querying A, from
any starting state. -/
theorem calculate_distance_moved_symm {DT : Type}
    (geodesicMeters : ℚ × ℚ → ℚ × ℚ → ℚ)
    (hsymm : ∀ p q, geodesicMeters p q = geodesicMeters q p)
    (self : EnvironmentalMonitor DT) (a1 a2 b1 b2 : ℚ) :
    (calculate_distance_moved geodesicMeters (store_position self a1 a2) b1 b2).1 =
      (calculate_distance_moved geodesicMeters (store_position self b1 b2) a1 a2).1 := by
  simp only [calculate_distance_moved, store_position, set_last_latitude, set_last_longitude]
  exact congrArg metersToFeet (hsymm (a1, a2) (b1, b2))

/-- Witness for C3 with the concrete symmetric collaborator `toyGeod`. -/
theorem calculate_distance_moved_symm_witness :
    (calculate_distance_moved toyGeod (store_position (initMonitor (0 : ℕ)) 1 2) 3 4).1 =
      (calculate_distance_moved toyGeod (store_position (initMonitor (0 : ℕ)) 3 4) 1 2).1 :=
  calculate_distance_moved_symm toyGeod
    (fun p q => by simp only [toyGeod]; ring) (initMonitor 0) 1 2 3 4

/-- Claim C4: for every state, `save_data_to_json` writes to the given
destination a JSON object with exactly the four keys, whose values equal
the state's current fields, the timestamp rendered through the ISO
renderer and absent numeric fields rendered as `null`. -/
theorem save_data_to_json_spec {DT : Type} (iso : DT → String)
    (self : EnvironmentalMonitor DT) (file_path : String) :
    (save_data_to_json iso self file_path).1.path = file_path ∧
    (save_data_to_json iso self file_path).1.content.keyList =
      ["last_update_time", "last_longitude", "last_latitude", "last_particulate_reading"] ∧
    (save_data_to_json iso self file_path).1.content.getField "last_update_time" =
      some (JsonValue.str (iso self.last_update_time)) ∧
    (save_data_to_json iso self file_path).1.content.getField "last_longitude" =
      some (optNumToJson self.last_longitude) ∧
    (save_data_to_json iso self file_path).1.content.getField "last_latitude" =
      some (optNumToJson self.last_latitude) ∧
    (save_data_to_json iso self file_path).1.content.getField "last_particulate_reading" =
      some (optNumToJson self.last_particulate_reading) ∧
    optNumToJson none = JsonValue.null ∧
    (∀ q : ℚ, optNumToJson (some q) = JsonValue.num q) := by
  refine ⟨rfl, rfl, ?_, ?_, ?_, ?_, rfl, fun q => rfl⟩ <;> rfl

/-- Claim C5: with `send_remote = true`, `send_data_to_aws_iot` issues
exactly one publish call, to the given topic, with qos 1 (at-least-once),
whose payload nests the four fields under a `state.reported` envelope. -/
theorem send_data_to_aws_iot_publishes {DT : Type} (iso : DT → String)
    (self : EnvironmentalMonitor DT) (aws_iot_topic : String)
    (h : self.send_remote = true) :
    (send_data_to_aws_iot iso self aws_iot_topic).1 =
      [{ topic := aws_iot_topic
         qos := 1
         payload := JsonValue.obj
           [("state", JsonValue.obj
             [("reported", JsonValue.obj
               [("last_update_time", JsonValue.str (iso self.last_update_time)),
                ("last_longitude", optNumToJson self.last_longitude),
                ("last_latitude", optNumToJson self.last_latitude),
                ("last_particulate_reading",
                  optNumToJson self.last_particulate_reading)])])] }] := by
  simp [send_data_to_aws_iot, h]

/-- Witness for C5 at a fresh monitor with the flag switched on. -/
theorem send_data_to_aws_iot_publishes_witness :
    (send_data_to_aws_iot (fun n : ℕ => toString n)
        (set_send_remote (initMonitor (0 : ℕ)) true) "environment/data").1 =
      [{ topic := "environment/data"
         qos := 1
         payload := JsonValue.obj
           [("state", JsonValue.obj
             [("reported", JsonValue.obj
               [("last_update_time", JsonValue.str "0"),
                ("last_longitude", JsonValue.null),
                ("last_latitude", JsonValue.null),
                ("last_particulate_reading", JsonValue.null)])])] }] :=
  send_data_to_aws_iot_publishes (fun n : ℕ => toString n)
    (set_send_remote (initMonitor 0) true) "environment/data" rfl

/-- Claim C6: with `send_remote = false`, `send_data_to_aws_iot` issues
no publish call, whatever the topic, and leaves the state unchanged. -/
theorem send_data_to_aws_iot_noop {DT : Type} (iso : DT → String)
    (self : EnvironmentalMonitor DT) (aws_iot_topic : String)
    (h : self.send_remote = false) :
    (send_data_to_aws_iot iso self aws_iot_topic).1 = [] ∧
    (send_data_to_aws_iot iso self aws_iot_topic).2 = self := by
  constructor <;> simp [send_data_to_aws_iot, h]

/-- Witness for C6 at a fresh monitor (flag defaults to false). -/
theorem send_data_to_aws_iot_noop_witness :
    (send_data_to_aws_iot (fun n : ℕ => toString n) (initMonitor (0 : ℕ)) "t").1 = [] ∧
    (send_data_to_aws_iot (fun n : ℕ => toString n) (initMonitor (0 : ℕ)) "t").2 =
      initMonitor (0 : ℕ) :=
  send_data_to_aws_iot_noop (fun n : ℕ => toString n) (initMonitor 0) "t" rfl

/-- Claim C7: the stub `read_gps_coordinates` returns the pair
`(34.0522, -118.2437)` and, from every prior state, afterwards
`last_latitude = 34.0522` and `last_longitude = -118.2437`, overwriting
any previously stored coordinates. -/
theorem read_gps_coordinates_spec {DT : Type} (self : EnvironmentalMonitor DT) :
    (read_gps_coordinates self).1 = ((34.0522 : ℚ), (-118.2437 : ℚ)) ∧
    (read_gps_coordinates self).2.last_latitude = some (34.0522 : ℚ) ∧
    (read_gps_coordinates self).2.last_longitude = some (-118.2437 : ℚ) :=
  ⟨rfl, rfl, rfl⟩

/-- Claim C8: `calculate_distance_moved` leaves every stored field of the
state unchanged, for every state and every input pair. -/
theorem calculate_distance_moved_frame {DT : Type}
    (geodesicMeters : ℚ × ℚ → ℚ × ℚ → ℚ) (self : EnvironmentalMonitor DT)
    (current_latitude current_longitude : ℚ) :
    (calculate_distance_moved geodesicMeters self current_latitude current_longitude).2 = self ∧
    (calculate_distance_moved geodesicMeters self
      current_latitude current_longitude).2.last_update_time = self.last_update_time ∧
    (calculate_distance_moved geodesicMeters self
      current_latitude current_longitude).2.last_latitude = self.last_latitude ∧
    (calculate_distance_moved geodesicMeters self
      current_latitude current_longitude).2.last_longitude = self.last_longitude ∧
    (calculate_distance_moved geodesicMeters self
      current_latitude current_longitude).2.last_particulate_reading =
        self.last_particulate_reading ∧
    (calculate_distance_moved geodesicMeters self
      current_latitude current_longitude).2.send_remote = self.send_remote := by
  have hstate :
      (calculate_distance_moved geodesicMeters self current_latitude current_longitude).2 =
        self := by
    cases h1 : self.last_latitude <;> cases h2 : self.last_longitude <;>
      simp [calculate_distance_moved, h1, h2]
  exact ⟨hstate, by rw [hstate], by rw [hstate], by rw [hstate], by rw [hstate], by rw [hstate]⟩

/-- Claim C9: no operation of the core other than the `last_update_time`
setter changes `last_update_time`: the two acquisition stubs, the
distance computation, both externalization operations, and the other four
property setters all preserve it. -/
theorem last_update_time_frame {DT : Type}
    (geodesicMeters : ℚ × ℚ → ℚ × ℚ → ℚ) (iso : DT → String)
    (self : EnvironmentalMonitor DT) (current_latitude current_longitude : ℚ)
    (file_path aws_iot_topic : String) (vlon vlat vread : Option ℚ) (vflag : Bool) :
    (read_gps_coordinates self).2.last_update_time = self.last_update_time ∧
    (read_environmental_data self).2.last_update_time = self.last_update_time ∧
    (calculate_distance_moved geodesicMeters self
      current_latitude current_longitude).2.last_update_time = self.last_update_time ∧
    (save_data_to_json iso self file_path).2.last_update_time = self.last_update_time ∧
    (send_data_to_aws_iot iso self aws_iot_topic).2.last_update_time = self.last_update_time ∧
    (set_last_longitude self vlon).last_update_time = self.last_update_time ∧
    (set_last_latitude self vlat).last_update_time = self.last_update_time ∧
    (set_send_remote self vflag).last_update_time = self.last_update_time ∧
    (set_last_particulate_reading self vread).last_update_time = self.last_update_time := by
  refine ⟨rfl, rfl, ?_, rfl, ?_, rfl, rfl, rfl, rfl⟩
  · cases h1 : self.last_latitude <;> cases h2 : self.last_longitude <;>
      simp [calculate_distance_moved, h1, h2]
  · cases h : self.send_remote <;> simp [send_data_to_aws_iot, h]

/-- Claim C10: every operation other than the `send_remote` setter
preserves the `send_remote` flag: the distance computation, the two
acquisition stubs, both externalization operations, and the other four
property setters. -/
theorem send_remote_frame {DT : Type}
    (geodesicMeters : ℚ × ℚ → ℚ × ℚ → ℚ) (iso : DT → String)
    (self : EnvironmentalMonitor DT) (current_latitude current_longitude : ℚ)
    (file_path aws_iot_topic : String) (vlon vlat vread : Option ℚ) (vtime : DT) :
    (calculate_distance_moved geodesicMeters self
      current_latitude current_longitude).2.send_remote = self.send_remote ∧
    (read_gps_coordinates self).2.send_remote = self.send_remote ∧
    (read_environmental_data self).2.send_remote = self.send_remote ∧
    (save_data_to_json iso self file_path).2.send_remote = self.send_remote ∧
    (send_data_to_aws_iot iso self aws_iot_topic).2.send_remote = self.send_remote ∧
    (set_last_update_time self vtime).send_remote = self.send_remote ∧
    (set_last_longitude self vlon).send_remote = self.send_remote ∧
    (set_last_latitude self vlat).send_remote = self.send_remote ∧
    (set_last_particulate_reading self vread).send_remote = self.send_remote := by
  refine ⟨?_, rfl, rfl, rfl, ?_, rfl, rfl, rfl, rfl⟩
  · cases h1 : self.last_latitude <;> cases h2 : self.last_longitude <;>
      simp [calculate_distance_moved, h1, h2]
  · cases h : self.send_remote <;> simp [send_data_to_aws_iot, h]
